import Mathlib

/-!
Verification of the relay-orchestration server of `volcanlock/aisbild`.

The definitions below are a shallow embedding, translated from
`src/unified-server.js` (the authoritative server variant) and, for the
peer-side header sanitization, from `src/black-browser.js`.  JavaScript
asynchrony is modelled by explicit state passing: each `await` point of a
handler consumes one entry of a `script` (the outcome that the awaited
promise produced), and timers are modelled as explicit transition events.
-/

namespace Aisbild

/-! ## Relay messages

Messages routed into a `MessageQueue` are either a parsed peer envelope
(`request_id`, `event_type`, `status`, `message`, `data`, `headers`) or the
sentinel object `\x7btype: "STREAM_END"\x7d` produced by
`ConnectionRegistry._routeMessage` for `stream_close` events
(`unified-server.js` lines 557-571). -/

inductive QMsg where
  /-- A peer envelope with `event_type` and optional payload fields. -/
  | relay (event_type : String) (status : Option Int) (message : Option String)
      (data : Option String) (headers : List (String × String))
  /-- The sentinel `\x7btype: "STREAM_END"\x7d` enqueued for `stream_close`. -/
  | streamEnd
  deriving DecidableEq, Repr

/-! ## MessageQueue (`unified-server.js` lines 435-482)

The JS queue holds a message buffer, a FIFO list of waiting resolvers and a
`closed` flag.  A resolver is identified here by a caller-chosen token
(object identity in JS); `dequeue` is split into its two observable steps:
`dequeueStart` (the synchronous part of the call) and `timeoutFire` (the
`setTimeout` callback firing before any `enqueue` served the waiter). -/

structure MessageQueue where
  messages : List QMsg
  waitingResolvers : List Nat
  closed : Bool
  deriving DecidableEq, Repr

namespace MessageQueue

/-- The freshly constructed queue (`new MessageQueue()`). -/
def init : MessageQueue := { messages := [], waitingResolvers := [], closed := false }

/-- Observable effect of one `enqueue` call. -/
inductive EnqueueEffect where
  /-- The call returned without doing anything (queue closed). -/
  | dropped
  /-- The message resolved the oldest pending waiter. -/
  | delivered (w : Nat) (m : QMsg)
  /-- The message was appended to the buffer. -/
  | buffered
  deriving DecidableEq, Repr

/-- `enqueue(message)`: no-op when closed; otherwise deliver to the oldest
waiter if one is pending, else append to the buffer (lines 443-451). -/
def enqueue (q : MessageQueue) (m : QMsg) : MessageQueue × EnqueueEffect :=
  if q.closed then (q, .dropped)
  else
    match q.waitingResolvers with
    | w :: rest => ({ q with waitingResolvers := rest }, .delivered w m)
    | [] => ({ q with messages := q.messages ++ [m] }, .buffered)

/-- Observable outcome of the synchronous part of one `dequeue` call. -/
inductive DequeueStart where
  /-- The call threw `Queue is closed` (line 454). -/
  | failedClosed
  /-- A buffered message was returned at once (lines 457-460). -/
  | immediate (m : QMsg)
  /-- A waiter with identity `w` was registered (lines 461-462). -/
  | waiting (w : Nat)
  deriving DecidableEq, Repr

/-- The synchronous part of `dequeue(timeoutMs)` (lines 452-462).  `w` is the
identity of the resolver object the call would allocate; in JS it is fresh by
construction. -/
def dequeueStart (q : MessageQueue) (w : Nat) : MessageQueue × DequeueStart :=
  if q.closed then (q, .failedClosed)
  else
    match q.messages with
    | m :: rest => ({ q with messages := rest }, .immediate m)
    | [] => ({ q with waitingResolvers := q.waitingResolvers ++ [w] }, .waiting w)

/-- Errors a suspended `dequeue` can fail with. -/
inductive QErr where
  /-- `Queue timeout` (line 467). -/
  | queueTimeout
  /-- `Queue closed` (line 477). -/
  | queueClosed
  deriving DecidableEq, Repr

/-- The `setTimeout` callback of a pending `dequeue` firing (lines 463-469):
if the resolver is still registered it is spliced out and rejected with
`Queue timeout`; otherwise (already served or already rejected) nothing
happens. -/
def timeoutFire (q : MessageQueue) (w : Nat) : MessageQueue × Option QErr :=
  if q.waitingResolvers.contains w then
    ({ q with waitingResolvers := q.waitingResolvers.erase w }, some .queueTimeout)
  else (q, none)

/-- `close()` (lines 473-481): mark closed, reject every pending waiter with
`Queue closed`, discard buffered messages.  The second component lists the
waiters that were rejected, in order. -/
def close (q : MessageQueue) : MessageQueue × List Nat :=
  ({ messages := [], waitingResolvers := [], closed := true }, q.waitingResolvers)

end MessageQueue

/-! ## ConnectionRegistry (`unified-server.js` lines 484-590)

Only the parts the claims are about: the connection set (modelled by its
size), the `requestId → MessageQueue` map and the 5-second reconnect grace
timer.  `graceTimer = true` means an armed, not-yet-fired, not-yet-cancelled
`reconnectGraceTimer` exists. -/

structure ConnectionRegistry where
  connectionCount : Nat
  messageQueues : List (String × MessageQueue)
  graceTimer : Bool
  deriving DecidableEq, Repr

/-- Events the registry emits. -/
inductive RegEvent where
  | connectionAdded
  | connectionRemoved
  /-- Emitted only when the grace period elapses unreconnected (line 528). -/
  | connectionLost
  deriving DecidableEq, Repr

namespace ConnectionRegistry

/-- `addConnection` (lines 492-513): cancel a pending grace timer, add the
connection.  In-flight queues are untouched. -/
def addConnection (r : ConnectionRegistry) : ConnectionRegistry × List RegEvent :=
  ({ r with graceTimer := false, connectionCount := r.connectionCount + 1 },
   [.connectionAdded])

/-- `_removeConnection` (lines 515-533): drop the connection and arm the
5-second grace timer.  No queue is touched here. -/
def removeConnection (r : ConnectionRegistry) : ConnectionRegistry × List RegEvent :=
  ({ r with connectionCount := r.connectionCount - 1, graceTimer := true },
   [.connectionRemoved])

/-- The grace timer firing (lines 521-529), possible only while armed: every
outstanding queue is closed, the map is cleared and `connectionLost` fires.
The middle component records, per request id, the closed queue and the
waiters its `close()` rejected. -/
def graceTimerElapsed (r : ConnectionRegistry) :
    ConnectionRegistry × List (String × MessageQueue × List Nat) × List RegEvent :=
  if r.graceTimer then
    ({ r with messageQueues := [], graceTimer := false },
     r.messageQueues.map (fun p => (p.1, (p.2.close).1, (p.2.close).2)),
     [.connectionLost])
  else (r, [], [])

end ConnectionRegistry

/-! ## Configuration and handler state (`unified-server.js` lines 592-614, 1205-1218)

Only the fields the claims depend on.  Numeric options come from `parseInt`,
so they are modelled as `Int`. -/

structure Config where
  failureThreshold : Int
  switchOnUses : Int
  maxRetries : Nat
  immediateSwitchStatusCodes : List Int
  deriving DecidableEq, Repr

/-- The mutable counters and flags of `RequestHandler` (lines 607-613)
together with `browserManager.currentAuthIndex` (line 616). -/
structure HandlerState where
  failureCount : Nat
  usageCount : Nat
  isAuthSwitching : Bool
  isSystemBusy : Bool
  needsSwitchingAfterRequest : Bool
  currentAuthIndex : Nat
  deriving DecidableEq, Repr

/-! ## Credential rotation (`unified-server.js` lines 624-762)

`availableIndices` is the validated index list built by `AuthSource`
(lines 76-77 and 118: deduplicated, sorted ascending, then filtered by JSON
pre-validation, which preserves the order). -/

/-- `_getNextAuthIndex` (lines 624-639): `null` on an empty list; the first
available index when the current index is absent; otherwise the entry after
the current one, cyclically. -/
def getNextAuthIndex (available : List Nat) (current : Nat) : Option Nat :=
  if available.isEmpty then none
  else if available.contains current then
    available[(available.indexOf current + 1) % available.length]?
  else available[0]?

/-- Outcome of the external browser-automation calls inside
`_switchToNextAuth`: these are awaited collaborator operations, so the model
takes their result as an input. -/
inductive ActivationOutcome where
  /-- `browserManager.switchAccount(nextAuthIndex)` succeeded. -/
  | success
  /-- `switchAccount` threw, the fallback
  `launchOrSwitchContext(previousAuthIndex)` succeeded. -/
  | failFallbackOk
  /-- Both the switch and the fallback threw (fatal). -/
  | failFallbackFail
  deriving DecidableEq, Repr

/-- The observable result of `_switchToNextAuth` (value returned or error
thrown). -/
inductive SwitchResult where
  /-- `\x7bsuccess: true, newIndex\x7d`. -/
  | ok (newIndex : Nat)
  /-- `\x7bsuccess: false, reason: "Switch already in progress."\x7d`. -/
  | skippedAlreadySwitching
  /-- `\x7bsuccess: false, fallback: true, newIndex\x7d`. -/
  | fallbackOk (index : Nat)
  /-- Threw `Only one account is available, cannot switch.`. -/
  | errOnlyOneAccount
  /-- Threw the fallback error (fatal path). -/
  | errFatalFallbackFailed
  deriving DecidableEq, Repr

/-- `_switchToNextAuth` (lines 641-703).  The busy/switching flags are set on
entry of the critical section and cleared in `finally`; the externally
observable final state therefore has them `false` on every path that entered
it.  `launchOrSwitchContext` assigns `currentAuthIndex` only on success
(line 338), so the fatal path leaves it unchanged. -/
def switchToNextAuth (avail : List Nat) (st : HandlerState)
    (outcome : ActivationOutcome) : SwitchResult × HandlerState :=
  if avail.length ≤ 1 then (.errOnlyOneAccount, st)
  else if st.isAuthSwitching then (.skippedAlreadySwitching, st)
  else
    match getNextAuthIndex avail st.currentAuthIndex with
    | none =>
      -- unreachable: `avail` has at least two entries here
      (.errOnlyOneAccount, st)
    | some next =>
      match outcome with
      | .success =>
        (.ok next,
         { st with currentAuthIndex := next, failureCount := 0, usageCount := 0,
                   isAuthSwitching := false, isSystemBusy := false })
      | .failFallbackOk =>
        (.fallbackOk st.currentAuthIndex,
         { st with failureCount := 0, usageCount := 0,
                   isAuthSwitching := false, isSystemBusy := false })
      | .failFallbackFail =>
        (.errFatalFallbackFailed,
         { st with isAuthSwitching := false, isSystemBusy := false })

/-! ## Failure accounting (`unified-server.js` lines 705-762) -/

/-- The counter update at the top of `_handleRequestFailureAndSwitch`
(lines 707-712): increment only when threshold-based switching is enabled. -/
def recordFailureCount (cfg : Config) (fc : Nat) : Nat :=
  if 0 < cfg.failureThreshold then fc + 1 else fc

/-- `immediateSwitchStatusCodes.includes(errorDetails.status)` (lines
714-716); a missing status never matches. -/
def isImmediateSwitch (cfg : Config) (status : Option Int) : Bool :=
  match status with
  | some s => cfg.immediateSwitchStatusCodes.contains s
  | none => false

/-- The switch condition of lines 717-722, evaluated on the post-increment
counter. -/
def shouldSwitchAfterFailure (cfg : Config) (fc : Nat) (status : Option Int) : Bool :=
  isImmediateSwitch cfg status ||
    (0 < cfg.failureThreshold && cfg.failureThreshold ≤ (recordFailureCount cfg fc : Int))

/-- The guarded reset shared by the two success paths (lines 1021-1026 and
1077-1082): only a generative request resets the failure counter. -/
def recordSuccessReset (isGenerative : Bool) (fc : Nat) : Nat :=
  if isGenerative && 0 < fc then 0 else fc

/-! ## String `includes` -/

/-- `pat` is a leading segment of `s`. -/
def startsWithChars : List Char → List Char → Bool
  | _, [] => true
  | [], _ :: _ => false
  | a :: as, b :: bs => a == b && startsWithChars as bs

/-- `pat` occurs contiguously somewhere in `s`. -/
def charsIncludes : List Char → List Char → Bool
  | [], pat => pat.isEmpty
  | a :: rest, pat => startsWithChars (a :: rest) pat || charsIncludes rest pat

/-- JavaScript `s.includes(sub)`. -/
def strIncludes (s sub : String) : Bool :=
  charsIncludes s.data sub.data

/-! ## Projections on relay messages, as the handlers read them -/

/-- `lastMessage.event_type === "error"` (line 971). -/
def QMsg.isErrorMsg : QMsg → Bool
  | .relay et _ _ _ _ => et == "error"
  | .streamEnd => false

/-- `message.status` as an optional value. -/
def QMsg.statusOf : QMsg → Option Int
  | .relay _ s _ _ _ => s
  | .streamEnd => none

/-- `message.data` as an optional value. -/
def QMsg.dataOf : QMsg → Option String
  | .relay _ _ _ d _ => d
  | .streamEnd => none

/-- `lastMessage.message && lastMessage.message.includes("The user aborted a
request")` (lines 974-977 and 1000-1003). -/
def QMsg.isUserAbort : QMsg → Bool
  | .relay _ _ (some m) _ _ => strIncludes m "The user aborted a request"
  | _ => false

/-! ## Client-visible response actions

The trace of calls a handler makes on the Express response object and on the
channel.  `write` and `sendErrorChunk` transmit body bytes (flushing the
pending status and headers on the first such call); `setStatus`/`setHeader`
only stage values; `sendJsonError` is `_sendErrorResponse` (lines
1157-1173): staged status plus a JSON body, used only while no body byte has
been flushed. -/

inductive RAction where
  | setStatus (s : Nat)
  | setHeader (name value : String)
  /-- `_forwardRequest`: the serialized request is sent to the peer. -/
  | forwardToPeer
  | write (chunk : String)
  /-- `_sendErrorChunkToClient(res, m)` (lines 911-924): writes one
  `data: <json error>\n\n` line. -/
  | sendErrorChunk (m : String)
  | sendJsonError (status : Int) (m : String)
  | endResponse
  deriving DecidableEq, Repr

/-- Does the action transmit response-body bytes (committing the staged
status on its first occurrence)? -/
def RAction.writesBody : RAction → Bool
  | .write _ => true
  | .sendErrorChunk _ => true
  | _ => false

/-- The HTTP status the client ends up seeing: the staged status at the time
of the first body write, or the status of a `sendJsonError`, whichever comes
first; `none` if the response never left the staging phase. -/
def commitAux (cur : Nat) : List RAction → Option Int
  | [] => none
  | .setStatus s :: rest => commitAux s rest
  | .sendJsonError s _ :: _ => some s
  | a :: rest => if a.writesBody then some (cur : Int) else commitAux cur rest

/-- Committed status of a trace, starting from the Express default 200. -/
def committedStatus (acts : List RAction) : Option Int :=
  commitAux 200 acts

/-- Number of dispatches of the proxy request to the peer in a trace. -/
def countForwards (acts : List RAction) : Nat :=
  (acts.filter fun a => a == .forwardToPeer).length

/-! ## `_handleRequestFailureAndSwitch` (lines 705-762) -/

/-- Client message of the branch where `_switchToNextAuth` returned without
throwing (lines 736-739). -/
def switchOkClientMsg : String :=
  "🔄 目标账户无效，已自动回退至账号。"

/-- Client message of the `Only one account is available` catch branch
(line 745). -/
def onlyOneAccountClientMsg : String :=
  "❌ 切换失败：只有一个可用账号。"

/-- Client message of the remaining catch branches (lines 741-754); the
exact text depends on substring tests against the thrown message. -/
def fatalSwitchClientMsg : String :=
  "❌ 致命错误：发生未知切换错误。"

/-- `_handleRequestFailureAndSwitch(errorDetails, res)`: update the failure
counter, decide whether to switch, run the switch and translate its outcome
into a client-visible error chunk (only when `res` was passed).  Returns the
new state, whether `_switchToNextAuth` was invoked, and the emitted
actions. -/
def handleRequestFailureAndSwitch (cfg : Config) (avail : List Nat)
    (st : HandlerState) (status : Option Int) (outcome : ActivationOutcome)
    (hasRes : Bool) : HandlerState × Bool × List RAction :=
  let st1 := { st with failureCount := recordFailureCount cfg st.failureCount }
  if shouldSwitchAfterFailure cfg st.failureCount status then
    let r := switchToNextAuth avail st1 outcome
    match r.1 with
    | .errOnlyOneAccount =>
      ({ r.2 with failureCount := 0 }, true,
       if hasRes then [.sendErrorChunk onlyOneAccountClientMsg] else [])
    | .errFatalFallbackFailed =>
      (r.2, true, if hasRes then [.sendErrorChunk fatalSwitchClientMsg] else [])
    | _ =>
      (r.2, true, if hasRes then [.sendErrorChunk switchOkClientMsg] else [])
  else (st1, false, [])

/-! ## `_handlePseudoStreamResponse` (lines 926-1048)

Each `await` of a queue message consumes one `DequeueOutcome` from the
script.  `kaTicks` is the number of times the 15-second keep-alive interval
(lines 932-934) wrote `: keep-alive\n\n` while that await was pending. -/

inductive DequeueOutcome where
  /-- The dequeue resolved with a message. -/
  | msg (kaTicks : Nat) (m : QMsg)
  /-- The 300-second overall timeout won the `Promise.race` (lines 949-961). -/
  | raceTimeout (kaTicks : Nat)
  /-- The dequeue promise rejected with an error whose message is `emsg`
  (queue closed, or the queue's own default timeout). -/
  | reject (kaTicks : Nat) (emsg : String)
  deriving DecidableEq, Repr

/-- The keep-alive writes observed while one await was pending. -/
def kaWrites (n : Nat) : List RAction :=
  List.replicate n (.write ": keep-alive\n\n")

/-- How the catch around the race (lines 962-969) turns one awaited outcome
into `lastMessage`: a rejection or a race timeout becomes a synthetic
`error` message with status 504. -/
def toLastMessage : DequeueOutcome → QMsg × List RAction
  | .msg ka m => (m, kaWrites ka)
  | .raceTimeout ka =>
    (.relay "error" (some 504)
       (some "Response from browser timed out after 300 seconds") none [],
     kaWrites ka)
  | .reject ka emsg =>
    (.relay "error" (some 504) (some emsg) none [], kaWrites ka)

/-- The retry loop (lines 941-996), by recursion on the remaining attempts
(`attemptsLeft = maxRetries` initially; `attempt < maxRetries` is
`attemptsLeft > 1`).  Each attempt forwards the request and awaits one
outcome; an `error` fragment is retried while attempts remain; the last
error sets `requestFailed`.  Returns `(lastMessage, requestFailed, unread
script, actions)`.  With zero attempts the loop body never runs and
`lastMessage` is never read afterwards (the success path ignores it), so an
arbitrary message is returned. -/
def attemptLoop : Nat → List DequeueOutcome → QMsg × Bool × List DequeueOutcome × List RAction
  | 0, script => (.streamEnd, false, script, [])
  | n + 1, script =>
    let outcome := script.headD (.reject 0 "Queue timeout")
    let rest := script.tail
    let p := toLastMessage outcome
    let acts := RAction.forwardToPeer :: p.2
    if p.1.isErrorMsg then
      if 0 < n then
        let r := attemptLoop n rest
        (r.1, r.2.1, r.2.2.1, acts ++ r.2.2.2)
      else (p.1, true, rest, acts)
    else (p.1, false, rest, acts)

/-- `_handleRequestError(error, res)` (lines 1144-1155) in pseudo-stream
mode: with headers already sent, write an error chunk and end; otherwise
send a JSON error response with status 504 for timeout-worded messages and
500 otherwise. -/
def handleRequestError (errMsg : String) (headersSent : Bool) : List RAction :=
  if headersSent then [.sendErrorChunk ("处理失败: " ++ errMsg), .endResponse]
  else [.sendJsonError (if strIncludes errMsg "超时" then 504 else 500)
          ("代理错误: " ++ errMsg)]
-- (in both branches the response is finished afterwards: `res.send` ends it,
-- and the headers-sent branch calls `res.end()` itself, so the enclosing
-- `finally` performs no further action)

/-- The staged status and headers set at the top of the handler
(lines 927-931). -/
def pseudoPreamble : List RAction :=
  [.setStatus 200,
   .setHeader "Content-Type" "text/event-stream",
   .setHeader "Cache-Control" "no-cache",
   .setHeader "Connection" "keep-alive"]

/-- Client message of the final-failure chunk (lines 1012-1015). -/
def finalFailClientMsg : String := "请求最终失败"

/-- `_handlePseudoStreamResponse(proxyRequest, messageQueue, req, res)`:
stage the SSE status and headers, run the retry loop, then either account
the failure (unless it is a user abort) and report it as an error chunk, or
take the success path (reset the counter for generative requests, await the
body and end messages, write the data and `[DONE]` lines).  Rejections of
the two success-path awaits propagate to `_handleRequestError`.  Returns the
final handler state, the action trace, and whether `_switchToNextAuth` was
invoked. -/
def pseudoStreamResponse (cfg : Config) (avail : List Nat) (st : HandlerState)
    (isGenerative : Bool) (script : List DequeueOutcome)
    (outcome : ActivationOutcome) : HandlerState × List RAction × Bool :=
  let r := attemptLoop cfg.maxRetries script
  let lastMessage := r.1
  let requestFailed := r.2.1
  let rest := r.2.2.1
  let loopActs := r.2.2.2
  if requestFailed then
    if lastMessage.isUserAbort then
      (st, pseudoPreamble ++ loopActs ++ [.endResponse], false)
    else
      let f := handleRequestFailureAndSwitch cfg avail st lastMessage.statusOf
        outcome true
      (f.1,
       pseudoPreamble ++ loopActs ++ f.2.2 ++
         [.sendErrorChunk finalFailClientMsg, .endResponse],
       f.2.1)
  else
    let st1 := { st with failureCount := recordSuccessReset isGenerative st.failureCount }
    match rest.headD (.reject 0 "Queue timeout") with
    | .msg ka1 dataMessage =>
      match rest.tail.headD (.reject 0 "Queue timeout") with
      | .msg ka2 _endMessage =>
        let dataActs :=
          match dataMessage.dataOf with
          | some d => [RAction.write ("data: " ++ d ++ "\n\n")]
          | none => []
        (st1,
         pseudoPreamble ++ loopActs ++ kaWrites ka1 ++ kaWrites ka2 ++ dataActs ++
           [.write "data: [DONE]\n\n", .endResponse],
         false)
      | .raceTimeout ka2 =>
        let acts := pseudoPreamble ++ loopActs ++ kaWrites ka1 ++ kaWrites ka2
        (st1, acts ++ handleRequestError "Queue timeout" (acts.any RAction.writesBody), false)
      | .reject ka2 emsg =>
        let acts := pseudoPreamble ++ loopActs ++ kaWrites ka1 ++ kaWrites ka2
        (st1, acts ++ handleRequestError emsg (acts.any RAction.writesBody), false)
    | .raceTimeout ka1 =>
      let acts := pseudoPreamble ++ loopActs ++ kaWrites ka1
      (st1, acts ++ handleRequestError "Queue timeout" (acts.any RAction.writesBody), false)
    | .reject ka1 emsg =>
      let acts := pseudoPreamble ++ loopActs ++ kaWrites ka1
      (st1, acts ++ handleRequestError emsg (acts.any RAction.writesBody), false)

/-! ## Request serialization (`unified-server.js` lines 885-910) and the
peer-side header sanitization (`black-browser.js` lines 243-257)

The request body reaching `_buildProxyRequest` has already been converted to
a string (lines 889-892), so it is modelled as one. -/

structure InboundRequest where
  method : String
  path : String
  headers : List (String × String)
  query : List (String × String)
  body : String
  deriving DecidableEq, Repr

/-- The serialized envelope sent over the channel (lines 893-902);
`is_generative` is attached by the caller afterwards (line 835). -/
structure ProxyRequest where
  path : String
  method : String
  headers : List (String × String)
  query_params : List (String × String)
  body : String
  request_id : String
  streaming_mode : String
  deriving DecidableEq, Repr

/-- `_buildProxyRequest(req, requestId)` (lines 888-902): the headers map of
the inbound request is copied into the envelope as-is. -/
def buildProxyRequest (req : InboundRequest) (requestId : String)
    (mode : String) : ProxyRequest :=
  { path := req.path, method := req.method, headers := req.headers,
    query_params := req.query, body := req.body, request_id := requestId,
    streaming_mode := mode }

/-- The header names deleted by `RequestProcessor._sanitizeHeaders`
(`black-browser.js` lines 245-255). -/
def sanitizedHeaderNames : List String :=
  ["host", "connection", "content-length", "origin", "referer", "user-agent",
   "sec-fetch-mode", "sec-fetch-site", "sec-fetch-dest"]

/-- `RequestProcessor._sanitizeHeaders(headers)` (`black-browser.js` lines
243-257), run by the peer on the received envelope before the upstream
fetch: copy the map and delete the listed keys. -/
def sanitizeHeaders (headers : List (String × String)) : List (String × String) :=
  headers.filter fun kv => !(sanitizedHeaderNames.contains kv.1)

/-- A concrete inbound request carrying hop-by-hop and client-identifying
headers. -/
def demoInbound : InboundRequest :=
  { method := "POST", path := "/v1beta/models/gemini-pro:generateContent",
    headers := [("host", "example.com"), ("connection", "keep-alive"),
                ("user-agent", "curl/8.0"), ("x-goog-api-key", "k")],
    query := [], body := "" }

/-- Does the action leave the staged status untouched (everything except
`setStatus` and `sendJsonError`)? -/
def RAction.neutralStatus : RAction → Bool
  | .setStatus _ => false
  | .sendJsonError _ _ => false
  | _ => true

/-- An `error` fragment as the peer emits it for a client-side abort
(`black-browser.js` lines 439-448 wrapping the fetch AbortError message). -/
def abortErrorMsg : QMsg :=
  .relay "error" (some 500)
    (some "代理端浏览器错误: The user aborted a request.") none []

/-- An ordinary upstream `error` fragment. -/
def serverErrorMsg : QMsg :=
  .relay "error" (some 500) (some "代理端浏览器错误: Internal error") none []

/-- A successful first fragment (`response_headers`). -/
def headersMsg : QMsg :=
  .relay "response_headers" (some 200) none none
    [("content-type", "application/json")]

/-- A configuration with one attempt per request, threshold 3 and no
immediate-switch codes (the shipped defaults, lines 1206-1218). -/
def demoCfg1 : Config :=
  { failureThreshold := 3, switchOnUses := 40, maxRetries := 1,
    immediateSwitchStatusCodes := [] }

/-- The same configuration with two attempts per request. -/
def demoCfg2 : Config :=
  { demoCfg1 with maxRetries := 2 }

/-- A fresh handler state on account index 1. -/
def demoState : HandlerState :=
  { failureCount := 0, usageCount := 0, isAuthSwitching := false,
    isSystemBusy := false, needsSwitchingAfterRequest := false,
    currentAuthIndex := 1 }

/-! # Claim theorems -/

/-- C4: after `close()` the queue is marked closed, every waiter that was
pending at close time is rejected (the rejection list is exactly the pending
waiter list, each with the `Queue closed` error), buffered messages are
discarded, every later `enqueue` is a no-op, every later `dequeue` fails at
once with the closed-queue error, and a second `close()` changes nothing and
rejects nobody. -/
theorem c4_queue_close_contract (q : MessageQueue) (m : QMsg) (w : Nat) :
    ((q.close).1).closed = true ∧
    (q.close).2 = q.waitingResolvers ∧
    ((q.close).1).messages = [] ∧
    MessageQueue.enqueue (q.close).1 m = ((q.close).1, .dropped) ∧
    MessageQueue.dequeueStart (q.close).1 w = ((q.close).1, .failedClosed) ∧
    MessageQueue.close (q.close).1 = ((q.close).1, []) :=
  ⟨rfl, rfl, rfl, rfl, rfl, rfl⟩

/-- C5: on an open queue, `dequeue` returns the oldest buffered message (the
head; `enqueue` appends at the tail) immediately when the buffer is
non-empty; on an empty buffer it registers a waiter at the tail of the
waiter list, and if the timeout fires before any `enqueue` served it, the
call fails with the `Queue timeout` error and the queue returns exactly to
its pre-dequeue state. -/
theorem c5_dequeue_timeout_contract (q : MessageQueue) (m : QMsg)
    (rest : List QMsg) (w : Nat) (hopen : q.closed = false) :
    (q.messages = m :: rest →
      q.dequeueStart w = ({ q with messages := rest }, .immediate m)) ∧
    (q.waitingResolvers = [] → q.closed = false →
      q.enqueue m = ({ q with messages := q.messages ++ [m] }, .buffered)) ∧
    (q.messages = [] →
      q.dequeueStart w
        = ({ q with waitingResolvers := q.waitingResolvers ++ [w] }, .waiting w) ∧
      (w ∉ q.waitingResolvers →
        MessageQueue.timeoutFire
            { q with waitingResolvers := q.waitingResolvers ++ [w] } w
          = (q, some .queueTimeout))) := by
  refine ⟨fun hm => ?_, fun hw _ => ?_, fun hm => ⟨?_, fun hfresh => ?_⟩⟩
  · simp [MessageQueue.dequeueStart, hopen, hm]
  · simp [MessageQueue.enqueue, hopen, hw]
  · simp [MessageQueue.dequeueStart, hopen, hm]
  · have hc : (q.waitingResolvers ++ [w]).contains w = true := by
      simp
    have he : (q.waitingResolvers ++ [w]).erase w = q.waitingResolvers := by
      rw [List.erase_append_right _ (by simpa using hfresh)]
      simp
    simp [MessageQueue.timeoutFire, hc, he]

/-- C5 witness: the contract evaluated on the empty open queue with waiter
token 0. -/
theorem c5_dequeue_timeout_contract_witness :
    MessageQueue.dequeueStart MessageQueue.init 0
      = ({ MessageQueue.init with waitingResolvers := [0] }, .waiting 0) ∧
    MessageQueue.timeoutFire { MessageQueue.init with waitingResolvers := [0] } 0
      = (MessageQueue.init, some .queueTimeout) := by
  have h := c5_dequeue_timeout_contract MessageQueue.init .streamEnd [] 0 rfl
  exact ⟨((h.2.2) rfl).1, ((h.2.2) rfl).2 (by decide)⟩

/-- C6: when the sole peer disconnects, no queue is closed immediately and
the grace timer is armed; a reconnection before the timer fires cancels it,
leaves every outstanding queue untouched, and makes a subsequent firing a
no-op; if instead the armed timer elapses, every outstanding queue is closed
(each rejecting exactly its pending waiters), the map is cleared, and the
`connectionLost` event fires. -/
theorem c6_disconnect_grace_contract (r : ConnectionRegistry)
    (_hsole : r.connectionCount = 1) :
    ((r.removeConnection).1.messageQueues = r.messageQueues ∧
      (r.removeConnection).1.graceTimer = true) ∧
    (((r.removeConnection).1.addConnection).1.messageQueues = r.messageQueues ∧
      ((r.removeConnection).1.addConnection).1.graceTimer = false ∧
      ConnectionRegistry.graceTimerElapsed ((r.removeConnection).1.addConnection).1
        = (((r.removeConnection).1.addConnection).1, [], [])) ∧
    ((ConnectionRegistry.graceTimerElapsed (r.removeConnection).1).1.messageQueues
        = [] ∧
      (ConnectionRegistry.graceTimerElapsed (r.removeConnection).1).2.1
        = r.messageQueues.map (fun p => (p.1, (p.2.close).1, (p.2.close).2)) ∧
      (∀ e ∈ (ConnectionRegistry.graceTimerElapsed (r.removeConnection).1).2.1,
        e.2.1.closed = true) ∧
      (∀ p ∈ r.messageQueues,
        (p.1, (p.2.close).1, p.2.waitingResolvers)
          ∈ (ConnectionRegistry.graceTimerElapsed (r.removeConnection).1).2.1) ∧
      (ConnectionRegistry.graceTimerElapsed (r.removeConnection).1).2.2
        = [.connectionLost]) := by
  refine ⟨⟨rfl, rfl⟩, ⟨rfl, rfl, ?_⟩, ⟨?_, ?_, ?_, ?_, ?_⟩⟩
  · simp [ConnectionRegistry.graceTimerElapsed, ConnectionRegistry.addConnection,
      ConnectionRegistry.removeConnection]
  · simp [ConnectionRegistry.graceTimerElapsed, ConnectionRegistry.removeConnection]
  · simp [ConnectionRegistry.graceTimerElapsed, ConnectionRegistry.removeConnection]
  · intro e he
    simp only [ConnectionRegistry.graceTimerElapsed,
      ConnectionRegistry.removeConnection, if_pos] at he
    simp only [List.mem_map] at he
    obtain ⟨p, _, hp⟩ := he
    rw [← hp]
    rfl
  · intro p hp
    simp only [ConnectionRegistry.graceTimerElapsed,
      ConnectionRegistry.removeConnection, if_pos]
    simp only [List.mem_map]
    exact ⟨p, hp, rfl⟩
  · simp [ConnectionRegistry.graceTimerElapsed, ConnectionRegistry.removeConnection]

/-- C6 witness: a registry with one peer and one outstanding queue holding a
pending waiter. -/
theorem c6_disconnect_grace_contract_witness :
    (ConnectionRegistry.graceTimerElapsed
        (ConnectionRegistry.removeConnection
          { connectionCount := 1,
            messageQueues := [("r1", { messages := [], waitingResolvers := [7],
                                       closed := false })],
            graceTimer := false }).1).2.1
      = [("r1", { messages := [], waitingResolvers := [], closed := true }, [7])] := by
  have h := c6_disconnect_grace_contract
    { connectionCount := 1,
      messageQueues := [("r1", { messages := [], waitingResolvers := [7],
                                 closed := false })],
      graceTimer := false } rfl
  exact h.2.2.2.1

/-- C9: with fewer than two validated credentials, `_switchToNextAuth`
throws the only-one-account error and leaves every piece of rotation state
(failure counter, usage counter, busy flag, switching flag, current index)
exactly as it was. -/
theorem c9_only_one_account_no_mutation (avail : List Nat) (st : HandlerState)
    (o : ActivationOutcome) (h : avail.length ≤ 1) :
    switchToNextAuth avail st o = (.errOnlyOneAccount, st) ∧
    (switchToNextAuth avail st o).2.failureCount = st.failureCount ∧
    (switchToNextAuth avail st o).2.usageCount = st.usageCount ∧
    (switchToNextAuth avail st o).2.isSystemBusy = st.isSystemBusy ∧
    (switchToNextAuth avail st o).2.isAuthSwitching = st.isAuthSwitching ∧
    (switchToNextAuth avail st o).2.currentAuthIndex = st.currentAuthIndex := by
  have he : switchToNextAuth avail st o = (.errOnlyOneAccount, st) := by
    simp [switchToNextAuth, h]
  exact ⟨he, by rw [he], by rw [he], by rw [he], by rw [he], by rw [he]⟩

/-- C9 witness: a single validated credential. -/
theorem c9_only_one_account_no_mutation_witness :
    switchToNextAuth [1]
        { failureCount := 2, usageCount := 5, isAuthSwitching := false,
          isSystemBusy := false, needsSwitchingAfterRequest := false,
          currentAuthIndex := 1 } .success
      = (.errOnlyOneAccount,
         { failureCount := 2, usageCount := 5, isAuthSwitching := false,
           isSystemBusy := false, needsSwitchingAfterRequest := false,
           currentAuthIndex := 1 }) :=
  (c9_only_one_account_no_mutation [1] _ .success (by decide)).1

/-- C8: `_getNextAuthIndex` targets the entry after the current index,
cyclically, in the validated index list (which `AuthSource` keeps sorted
ascending), and falls back to the first available index when the current
index is not in the list; and when the activation of the computed target
succeeds, `_switchToNextAuth` returns it and resets both the failure counter
and the usage counter to zero. -/
theorem c8_cyclic_switch_resets_counters (avail : List Nat) (st : HandlerState)
    (current : Nat) (hne : avail ≠ []) :
    (current ∈ avail →
      getNextAuthIndex avail current
        = avail[(avail.indexOf current + 1) % avail.length]?) ∧
    (current ∉ avail → getNextAuthIndex avail current = avail[0]?) ∧
    (2 ≤ avail.length → st.isAuthSwitching = false →
      ∀ next, getNextAuthIndex avail st.currentAuthIndex = some next →
        switchToNextAuth avail st .success
          = (.ok next,
             { st with currentAuthIndex := next, failureCount := 0,
                       usageCount := 0, isAuthSwitching := false,
                       isSystemBusy := false })) := by
  refine ⟨fun hmem => ?_, fun hnot => ?_, fun hlen hsw next hnext => ?_⟩
  · simp [getNextAuthIndex, hne, hmem]
  · simp [getNextAuthIndex, hne, hnot]
  · have h1 : ¬ avail.length ≤ 1 := by omega
    simp [switchToNextAuth, h1, hsw, hnext]

/-- C8 witness: list `[1, 2, 3]` with current index 2: the target is 3 and
both counters drop to zero on success. -/
theorem c8_cyclic_switch_resets_counters_witness :
    switchToNextAuth [1, 2, 3]
        { failureCount := 2, usageCount := 9, isAuthSwitching := false,
          isSystemBusy := false, needsSwitchingAfterRequest := false,
          currentAuthIndex := 2 } .success
      = (.ok 3,
         { failureCount := 0, usageCount := 0, isAuthSwitching := false,
           isSystemBusy := false, needsSwitchingAfterRequest := false,
           currentAuthIndex := 3 }) :=
  (c8_cyclic_switch_resets_counters [1, 2, 3] _ 2 (by decide)).2.2
    (by decide) rfl 3 (by decide)

/-- C7: on a terminal failure the counter is incremented exactly when
threshold-based switching is enabled; `_switchToNextAuth` is invoked if and
only if the status is in the immediate-switch set or the post-increment
counter has reached the threshold; and with immediate-switch set
`[429, 503]` a single 429 failure triggers the switch whatever the counter
value. -/
theorem c7_failure_switch_decision (cfg : Config) (fc : Nat)
    (status : Option Int) (st : HandlerState) (avail : List Nat)
    (o : ActivationOutcome) (hasRes : Bool) :
    (recordFailureCount cfg fc = fc + 1 ↔ 0 < cfg.failureThreshold) ∧
    (recordFailureCount cfg fc = fc ↔ ¬ 0 < cfg.failureThreshold) ∧
    ((handleRequestFailureAndSwitch cfg avail st status o hasRes).2.1
      = shouldSwitchAfterFailure cfg st.failureCount status) ∧
    (shouldSwitchAfterFailure cfg fc status = true ↔
      isImmediateSwitch cfg status = true ∨
        (0 < cfg.failureThreshold ∧
          (cfg.failureThreshold : Int) ≤ (recordFailureCount cfg fc : Int))) ∧
    (shouldSwitchAfterFailure
        { cfg with immediateSwitchStatusCodes := [429, 503] } fc (some 429)
      = true) := by
  refine ⟨?_, ?_, ?_, ?_, ?_⟩
  · unfold recordFailureCount
    split <;> simp_all
  · unfold recordFailureCount
    split <;> simp_all
  · unfold handleRequestFailureAndSwitch
    dsimp only
    split
    next hs =>
      split <;> simp [hs]
    next hs =>
      simp only [Bool.not_eq_true] at hs
      simp [hs]
  · unfold shouldSwitchAfterFailure
    simp [decide_eq_true_eq]
  · simp [shouldSwitchAfterFailure, isImmediateSwitch]

/-- C2 counterexample: the envelope `_buildProxyRequest` hands to the
channel for transmission to the peer still contains the `host`,
`connection` and `user-agent` headers of the inbound request, so they are
not removed before it is sent. -/
theorem c2_counterexample :
    ("host", "example.com") ∈ (buildProxyRequest demoInbound "req_1" "fake").headers ∧
    ("connection", "keep-alive") ∈ (buildProxyRequest demoInbound "req_1" "fake").headers ∧
    ("user-agent", "curl/8.0") ∈ (buildProxyRequest demoInbound "req_1" "fake").headers := by
  refine ⟨?_, ?_, ?_⟩ <;> simp [buildProxyRequest, demoInbound]

/-- C2 amended: the serialized proxy request is sent to the peer with the
inbound headers map unmodified; the removal of hop-by-hop and
client-identifying headers happens on the peer, whose
`RequestProcessor._sanitizeHeaders` drops exactly the listed names from the
received map before the upstream call and keeps every other entry. -/
theorem c2_amended_sanitize_on_peer (req : InboundRequest) (rid mode : String)
    (hs : List (String × String)) (kv : String × String) :
    (buildProxyRequest req rid mode).headers = req.headers ∧
    (kv ∈ sanitizeHeaders hs → kv ∈ hs ∧ kv.1 ∉ sanitizedHeaderNames) ∧
    (kv ∈ hs → kv.1 ∉ sanitizedHeaderNames → kv ∈ sanitizeHeaders hs) := by
  refine ⟨rfl, fun hin => ?_, fun hin hname => ?_⟩
  · unfold sanitizeHeaders at hin
    rw [List.mem_filter] at hin
    refine ⟨hin.1, ?_⟩
    have := hin.2
    simpa using this
  · unfold sanitizeHeaders
    rw [List.mem_filter]
    exact ⟨hin, by simpa using hname⟩

/-- C2 amended witness: on the demo headers the peer-side sanitization keeps
the API-key header and, by the counterexample, the server sent the map
through unmodified. -/
theorem c2_amended_sanitize_on_peer_witness :
    ("x-goog-api-key", "k") ∈ sanitizeHeaders demoInbound.headers :=
  (c2_amended_sanitize_on_peer demoInbound "req_1" "fake" demoInbound.headers
      ("x-goog-api-key", "k")).2.2 (by simp [demoInbound]) (by decide)

/-! ## Lemmas about the attempt loop and trace accounting -/

/-- Keep-alive writes leave the staged status untouched. -/
theorem kaWrites_neutral (n : Nat) : ∀ a ∈ kaWrites n, a.neutralStatus = true := by
  intro a ha
  rw [kaWrites, List.mem_replicate] at ha
  rw [ha.2]
  rfl

/-- Keep-alive writes are not dispatches. -/
theorem kaWrites_no_forward (n : Nat) : ∀ a ∈ kaWrites n, a ≠ RAction.forwardToPeer := by
  intro a ha
  rw [kaWrites, List.mem_replicate] at ha
  rw [ha.2]
  intro hcontra
  cases hcontra

/-- A script of `n ≥ 1` abort-free error fragments drives the retry loop
through all `n` attempts, each with its own dispatch, ending failed. -/
theorem attemptLoop_all_error (m : QMsg) (herr : m.isErrorMsg = true) :
    ∀ n, 1 ≤ n →
      attemptLoop n (List.replicate n (.msg 0 m))
        = (m, true, [], List.replicate n .forwardToPeer) := by
  intro n
  induction n with
  | zero => omega
  | succ k ih =>
    intro _
    rcases Nat.eq_zero_or_pos k with hk | hk
    · subst hk
      simp [attemptLoop, toLastMessage, kaWrites, herr]
    · have hk1 : 1 ≤ k := hk
      rw [List.replicate_succ]
      simp only [attemptLoop, List.headD_cons, List.tail_cons, toLastMessage, kaWrites,
        List.replicate_zero, herr, if_pos (Nat.lt_of_lt_of_le Nat.zero_lt_one hk1)]
      rw [ih hk1]
      simp [List.replicate_succ]

/-- A non-error first fragment ends the loop at once with one dispatch. -/
theorem attemptLoop_first_ok (m : QMsg) (ka : Nat) (rest : List DequeueOutcome)
    (hok : m.isErrorMsg = false) :
    ∀ n, 1 ≤ n →
      attemptLoop n ((.msg ka m) :: rest)
        = (m, false, rest, .forwardToPeer :: kaWrites ka) := by
  intro n
  cases n with
  | zero => omega
  | succ k =>
    intro _
    simp [attemptLoop, toLastMessage, hok]

/-- Every action the retry loop emits is a dispatch or a keep-alive write;
in particular none of them changes the staged status. -/
theorem attemptLoop_acts_neutral (n : Nat) :
    ∀ script, ∀ a ∈ (attemptLoop n script).2.2.2, a.neutralStatus = true := by
  induction n with
  | zero => intro script a ha; cases ha
  | succ k ih =>
    intro script a ha
    rcases ho : script.headD (.reject 0 "Queue timeout") with ⟨ka, m⟩ | ka | ⟨ka, emsg⟩ <;>
      simp only [attemptLoop, ho, toLastMessage] at ha
    all_goals repeat' split at ha
    all_goals dsimp only at ha
    all_goals
      simp only [List.cons_append, List.mem_cons, List.mem_append] at ha
    all_goals
      rcases ha with rfl | ha
    all_goals try rfl
    all_goals
      first
      | exact kaWrites_neutral _ _ ha
      | (rcases ha with ha | ha
         · exact kaWrites_neutral _ _ ha
         · exact ih _ _ ha)

/-- Every action `_handleRequestFailureAndSwitch` emits toward the client is
an error chunk. -/
theorem handleFailure_acts_chunks (cfg : Config) (avail : List Nat)
    (st : HandlerState) (status : Option Int) (o : ActivationOutcome)
    (hasRes : Bool) :
    ∀ a ∈ (handleRequestFailureAndSwitch cfg avail st status o hasRes).2.2,
      ∃ mm, a = RAction.sendErrorChunk mm := by
  intro a ha
  unfold handleRequestFailureAndSwitch at ha
  dsimp only at ha
  split at ha
  · split at ha <;> split at ha <;>
      first
      | (rw [List.mem_singleton] at ha; exact ⟨_, ha⟩)
      | cases ha
  · cases ha

/-- On a status-neutral trace the committed status is the current staged one
as soon as any body byte goes out, and stays uncommitted otherwise. -/
theorem commitAux_neutral (acts : List RAction) :
    ∀ cur, (∀ a ∈ acts, a.neutralStatus = true) →
      commitAux cur acts
        = if acts.any RAction.writesBody then some (cur : Int) else none := by
  induction acts with
  | nil => intro cur _; rfl
  | cons a rest ih =>
    intro cur h
    have hne := h a (List.mem_cons_self a rest)
    have hrest := fun b hb => h b (List.mem_cons_of_mem a hb)
    cases a with
    | setStatus s => cases hne
    | sendJsonError s m => cases hne
    | setHeader nm v => simpa [commitAux, RAction.writesBody] using ih cur hrest
    | forwardToPeer => simpa [commitAux, RAction.writesBody] using ih cur hrest
    | write c => simp [commitAux, RAction.writesBody]
    | sendErrorChunk m => simp [commitAux, RAction.writesBody]
    | endResponse => simpa [commitAux, RAction.writesBody] using ih cur hrest

/-- The committed status of a trace that starts with the pseudo-stream
preamble is determined by the rest with the staged status at 200. -/
theorem committedStatus_preamble (tail : List RAction) :
    committedStatus (pseudoPreamble ++ tail) = commitAux 200 tail := by
  simp [committedStatus, pseudoPreamble, commitAux, RAction.writesBody]

/-- Every pseudo-stream trace begins with the preamble: status 200 and the
SSE headers are staged before anything else (in particular before the first
dispatch, since the preamble contains none). -/
theorem pseudoStream_trace_preamble (cfg : Config) (avail : List Nat)
    (st : HandlerState) (isGen : Bool) (script : List DequeueOutcome)
    (o : ActivationOutcome) :
    (pseudoStreamResponse cfg avail st isGen script o).2.1.take 4
      = pseudoPreamble := by
  unfold pseudoStreamResponse
  dsimp only
  split
  · split
    all_goals simp only [List.append_assoc]
    all_goals exact List.take_left' rfl
  · split
    · split
      all_goals simp only [List.append_assoc]
      all_goals exact List.take_left' rfl
    all_goals simp only [List.append_assoc]
    all_goals exact List.take_left' rfl

/-! ## C1 -/

/-- C1 counterexample: with two configured attempts, the first attempt
yields an `error` fragment whose message marks a client abort, yet the
orchestrator dispatches the request to the peer a second time (two
`forwardToPeer` actions), so the request is re-dispatched for another
attempt after a cancellation fragment below the retry maximum. -/
theorem c1_counterexample :
    abortErrorMsg.isUserAbort = true ∧
    demoCfg2.maxRetries = 2 ∧
    countForwards (pseudoStreamResponse demoCfg2 [1, 2] demoState true
        [.msg 0 abortErrorMsg, .msg 0 abortErrorMsg] .success).2.1 = 2 := by
  refine ⟨by decide, rfl, by decide⟩

/-- C1 amended: an attempt that yields a cancellation-type `error` fragment
is re-dispatched like any other error while attempts remain (one dispatch
per configured attempt), but the final cancellation outcome leaves the
handler state — in particular the failure counter — untouched, invokes no
switch, and sends no failure chunk: the response is simply ended. -/
theorem c1_amended_cancel_not_counted (cfg : Config) (avail : List Nat)
    (st : HandlerState) (isGen : Bool) (o : ActivationOutcome) (m : QMsg)
    (hmr : 1 ≤ cfg.maxRetries) (herr : m.isErrorMsg = true)
    (habort : m.isUserAbort = true) :
    pseudoStreamResponse cfg avail st isGen
        (List.replicate cfg.maxRetries (.msg 0 m)) o
      = (st,
         pseudoPreamble ++ List.replicate cfg.maxRetries .forwardToPeer
           ++ [.endResponse],
         false) := by
  unfold pseudoStreamResponse
  rw [attemptLoop_all_error m herr cfg.maxRetries hmr]
  simp [habort]

/-- C1 witness: the amended statement evaluated on the two-attempt
configuration and the concrete abort fragment. -/
theorem c1_amended_cancel_not_counted_witness :
    pseudoStreamResponse demoCfg2 [1, 2] demoState false
        (List.replicate 2 (.msg 0 abortErrorMsg)) .success
      = (demoState,
         pseudoPreamble ++ List.replicate 2 .forwardToPeer ++ [.endResponse],
         false) :=
  c1_amended_cancel_not_counted demoCfg2 [1, 2] demoState false .success
    abortErrorMsg (by decide) (by decide) (by decide)

/-- On a successful attempt (loop ends unfailed) the final handler state is
the input state with the success reset applied — whatever the rest of the
script does to the response. -/
theorem pseudoStream_success_state (cfg : Config) (avail : List Nat)
    (st : HandlerState) (isGen : Bool) (script : List DequeueOutcome)
    (o : ActivationOutcome) (m : QMsg) (rest : List DequeueOutcome)
    (la : List RAction)
    (heq : attemptLoop cfg.maxRetries script = (m, false, rest, la)) :
    (pseudoStreamResponse cfg avail st isGen script o).1
      = { st with failureCount := recordSuccessReset isGen st.failureCount } := by
  unfold pseudoStreamResponse
  dsimp only
  rw [heq]
  dsimp only
  split
  next h => exact absurd h (by simp)
  next _ =>
    split <;> try rfl
    split <;> rfl

/-! ## C3 -/

/-- C3 counterexample: a non-generative request whose single attempt fails
with an ordinary upstream error increments the failure counter from 0 to 1
(with the default threshold 3 and no immediate-switch codes), although the
claim says a failed non-generative request leaves it unchanged. -/
theorem c3_counterexample :
    demoState.failureCount = 0 ∧
    (pseudoStreamResponse demoCfg1 [1, 2] demoState false
        [.msg 0 serverErrorMsg] .success).1.failureCount = 1 :=
  ⟨rfl, by decide⟩

/-- C3 amended: the generative flag gates only the success-path reset — a
successful generative request resets the failure counter to zero and a
successful non-generative request leaves it unchanged — but failure
accounting ignores the flag: a terminal non-cancelled failure below every
switch condition increments the counter by one whether or not the request
was generative (whenever threshold-based switching is enabled). -/
theorem c3_amended_generative_gates_reset_only (cfg : Config)
    (avail : List Nat) (st : HandlerState) (isGen : Bool)
    (o : ActivationOutcome) (m : QMsg) (ka : Nat)
    (rest : List DequeueOutcome) (fc : Nat) :
    (recordSuccessReset true fc = 0) ∧
    (recordSuccessReset false fc = fc) ∧
    (1 ≤ cfg.maxRetries → m.isErrorMsg = false →
      (pseudoStreamResponse cfg avail st isGen ((.msg ka m) :: rest) o).1
        = { st with failureCount := recordSuccessReset isGen st.failureCount }) ∧
    (0 < cfg.failureThreshold →
      shouldSwitchAfterFailure cfg st.failureCount m.statusOf = false →
      m.isErrorMsg = true → m.isUserAbort = false → 1 ≤ cfg.maxRetries →
      (pseudoStreamResponse cfg avail st isGen
          (List.replicate cfg.maxRetries (.msg 0 m)) o).1.failureCount
        = st.failureCount + 1) := by
  refine ⟨?_, ?_, fun hmr hok => ?_, fun hth hss herr habort hmr => ?_⟩
  · rcases Nat.eq_zero_or_pos fc with h | h <;> simp [recordSuccessReset, h]
  · simp [recordSuccessReset]
  · exact pseudoStream_success_state cfg avail st isGen _ o m rest _
      (attemptLoop_first_ok m ka rest hok cfg.maxRetries hmr)
  · unfold pseudoStreamResponse
    rw [attemptLoop_all_error m herr cfg.maxRetries hmr]
    dsimp only
    simp [habort, handleRequestFailureAndSwitch, hss, recordFailureCount, hth]

/-- C3 witness: the amended failure clause evaluated on a concrete
non-generative request with one failing attempt. -/
theorem c3_amended_generative_gates_reset_only_witness :
    (pseudoStreamResponse demoCfg1 [1, 2] demoState false
        (List.replicate 1 (.msg 0 serverErrorMsg)) .success).1.failureCount
      = demoState.failureCount + 1 :=
  (c3_amended_generative_gates_reset_only demoCfg1 [1, 2] demoState false
      .success serverErrorMsg 0 [] 0).2.2.2
    (by decide) (by decide) (by decide) (by decide) (by decide)

/-! ## C10 -/

/-- C10 counterexample: a pseudo-stream request whose attempt succeeds
(`response_headers` fragment) but whose queue then rejects with
`Queue closed` before the body chunk arrives — and before any body byte or
keep-alive was written — is answered with a committed HTTP status 500 (a
JSON error response), not 200 and not an SSE `data:` line. -/
theorem c10_counterexample :
    committedStatus (pseudoStreamResponse demoCfg1 [1, 2] demoState true
        [.msg 0 headersMsg, .reject 0 "Queue closed"] .success).2.1
      = some 500 := by
  decide

/-- C10 amended: the handler stages status 200 and the SSE headers as its
first four actions, before any dispatch to the peer (the preamble contains
no dispatch); every terminal failure detected by the retry loop (retries
exhausted, overall timeout, rotation outcome) other than a user abort is
delivered as an SSE error `data:` chunk on the committed 200 response; but
an error escaping after a successful attempt — such as the queue closing
while the body chunk is awaited — is sent, when no body byte has been
written yet, as a committed non-200 JSON error response (504 for
timeout-worded errors, 500 otherwise). -/
theorem c10_amended_sse_error_delivery (cfg : Config) (avail : List Nat)
    (st : HandlerState) (isGen : Bool) (script : List DequeueOutcome)
    (o : ActivationOutcome) (hm : QMsg) (emsg : String)
    (rest' : List DequeueOutcome) :
    ((pseudoStreamResponse cfg avail st isGen script o).2.1.take 4
        = pseudoPreamble ∧
      countForwards pseudoPreamble = 0) ∧
    (∀ m rest la, attemptLoop cfg.maxRetries script = (m, true, rest, la) →
      m.isUserAbort = false →
      RAction.sendErrorChunk finalFailClientMsg
          ∈ (pseudoStreamResponse cfg avail st isGen script o).2.1 ∧
      committedStatus (pseudoStreamResponse cfg avail st isGen script o).2.1
        = some 200) ∧
    (script = (.msg 0 hm) :: (.reject 0 emsg) :: rest' →
      hm.isErrorMsg = false → 1 ≤ cfg.maxRetries →
      (pseudoStreamResponse cfg avail st isGen script o).2.1
        = pseudoPreamble
            ++ [.forwardToPeer,
                .sendJsonError (if strIncludes emsg "超时" then 504 else 500)
                  ("代理错误: " ++ emsg)] ∧
      committedStatus (pseudoStreamResponse cfg avail st isGen script o).2.1
        = some (if strIncludes emsg "超时" then 504 else 500)) := by
  refine ⟨⟨pseudoStream_trace_preamble cfg avail st isGen script o, by decide⟩,
    fun m rest la heq habort => ?_, fun hscript hok hmr => ?_⟩
  · have htr : (pseudoStreamResponse cfg avail st isGen script o).2.1
        = pseudoPreamble ++ la
            ++ (handleRequestFailureAndSwitch cfg avail st m.statusOf o true).2.2
            ++ [.sendErrorChunk finalFailClientMsg, .endResponse] := by
      unfold pseudoStreamResponse
      rw [heq]
      dsimp only
      simp [habort]
    have hneutral : ∀ a ∈ la
        ++ ((handleRequestFailureAndSwitch cfg avail st m.statusOf o true).2.2
          ++ [RAction.sendErrorChunk finalFailClientMsg, RAction.endResponse]),
        a.neutralStatus = true := by
      intro a ha
      rw [List.mem_append] at ha
      rcases ha with ha | ha
      · have hla := attemptLoop_acts_neutral cfg.maxRetries script a
        rw [heq] at hla
        exact hla ha
      rw [List.mem_append] at ha
      rcases ha with ha | ha
      · obtain ⟨mm, rfl⟩ := handleFailure_acts_chunks cfg avail st m.statusOf o true a ha
        rfl
      · simp only [List.mem_cons, List.not_mem_nil, or_false] at ha
        rcases ha with rfl | rfl <;> rfl
    constructor
    · rw [htr]
      simp [List.mem_append]
    · rw [htr]
      simp only [List.append_assoc]
      rw [committedStatus_preamble, commitAux_neutral _ 200 hneutral]
      simp [RAction.writesBody]
  · subst hscript
    unfold pseudoStreamResponse
    rw [attemptLoop_first_ok hm 0 ((.reject 0 emsg) :: rest') hok cfg.maxRetries hmr]
    dsimp only
    constructor
    · simp [kaWrites, handleRequestError, pseudoPreamble, RAction.writesBody]
    · simp [kaWrites, handleRequestError, pseudoPreamble, RAction.writesBody,
        committedStatus, commitAux]

/-- C10 witness: the SSE clause evaluated on a single failing attempt: the
final-failure chunk is in the trace and the committed status is 200. -/
theorem c10_amended_sse_error_delivery_witness :
    RAction.sendErrorChunk finalFailClientMsg
        ∈ (pseudoStreamResponse demoCfg1 [1, 2] demoState true
            [.msg 0 serverErrorMsg] .success).2.1 ∧
    committedStatus (pseudoStreamResponse demoCfg1 [1, 2] demoState true
        [.msg 0 serverErrorMsg] .success).2.1 = some 200 :=
  (c10_amended_sse_error_delivery demoCfg1 [1, 2] demoState true
      [.msg 0 serverErrorMsg] .success serverErrorMsg "x" []).2.1
    serverErrorMsg [] [.forwardToPeer] (by decide) (by decide)

end Aisbild
